import Mathlib

/-
Verification of the playoff-probability simulator (TPS.py).

The script is embedded shallowly:
  * team identifiers are strings;
  * the `defaultdict(int)` accumulators become a `Stats` structure of
    counter functions `Team → ℕ`, with `bump` modelling `d[k] += n`;
  * float arithmetic is modelled by exact rationals (`0.5 ↦ 1/2`,
    `0.3 ↦ 3/10`, `1e-9 ↦ 1/10^9`);
  * `random.random()` draws become explicit rational parameters, one per
    simulated game, and the Monte Carlo loop threads an explicit
    `MCState` holding the baseline snapshot and the success counter.
-/

abbrev Team := String

structure TeamSide where
  teamName : Team
  goals : ℕ
deriving DecidableEq

/-- One record of `liiga_games.json`, restricted to the fields the engine
reads (`season`/`serie` filtering is the excluded loading collaborator). -/
structure GameRecord where
  homeTeam : TeamSide
  awayTeam : TeamSide
  ended : Bool
  finishedType : String
deriving DecidableEq

/-- Substring test on character lists: some tail of `s` starts with `pat`.
Models the Python `pat in s` membership test on strings. -/
def listContains (pat : List Char) (s : List Char) : Bool :=
  (s.tails).any (fun t => pat.isPrefixOf t)

/-- Python `pat in s` for strings. -/
def strContains (s pat : String) : Bool :=
  listContains pat.toList s.toList

def OVERTIME_TAG : String := "OVERTIME"

def EXTENDED_TAG : String := "EXTENDED"

def WINNING_SHOT_TAG : String := "WINNING_SHOT"

/-- The qualifier-tag test of TPS.py line 43:
`"OVERTIME" in ft or "EXTENDED" in ft or "WINNING_SHOT" in ft`. -/
def isExtendedType (ft : String) : Bool :=
  strContains ft OVERTIME_TAG || strContains ft EXTENDED_TAG ||
    strContains ft WINNING_SHOT_TAG

/-- The mutable accumulators of the statistical phase (TPS.py lines 18-25),
all `defaultdict(int)`. -/
@[ext]
structure Stats where
  points : Team → ℕ
  games_played : Team → ℕ
  stats_games : Team → ℕ
  stats_reg_win : Team → ℕ
  stats_reg_loss : Team → ℕ
  stats_ot_so_win : Team → ℕ
  stats_ot_so_loss : Team → ℕ

/-- Fresh `defaultdict(int)` accumulators: every counter is zero. -/
def initStats : Stats :=
  ⟨fun _ => 0, fun _ => 0, fun _ => 0, fun _ => 0, fun _ => 0, fun _ => 0,
    fun _ => 0⟩

/-- `d[t] += n` on a counter dictionary. -/
def bump (f : Team → ℕ) (t : Team) (n : ℕ) : Team → ℕ :=
  fun x => if x = t then f x + n else f x

/-- The body of the `for game in ended_games` loop (TPS.py lines 29-70):
count the game for both teams, then classify the outcome and award
points and win/loss tallies. -/
def processGame (s : Stats) (g : GameRecord) : Stats :=
  let home_team := g.homeTeam.teamName
  let away_team := g.awayTeam.teamName
  let home_goals := g.homeTeam.goals
  let away_goals := g.awayTeam.goals
  let s1 : Stats :=
    { s with
      stats_games := bump (bump s.stats_games home_team 1) away_team 1
      games_played := bump (bump s.games_played home_team 1) away_team 1 }
  if isExtendedType g.finishedType then
    if home_goals > away_goals then
      { s1 with
        points := bump (bump s1.points home_team 2) away_team 1
        stats_ot_so_win := bump s1.stats_ot_so_win home_team 1
        stats_ot_so_loss := bump s1.stats_ot_so_loss away_team 1 }
    else
      { s1 with
        points := bump (bump s1.points away_team 2) home_team 1
        stats_ot_so_win := bump s1.stats_ot_so_win away_team 1
        stats_ot_so_loss := bump s1.stats_ot_so_loss home_team 1 }
  else
    if home_goals > away_goals then
      { s1 with
        points := bump s1.points home_team 3
        stats_reg_win := bump s1.stats_reg_win home_team 1
        stats_reg_loss := bump s1.stats_reg_loss away_team 1 }
    else if home_goals < away_goals then
      { s1 with
        points := bump s1.points away_team 3
        stats_reg_win := bump s1.stats_reg_win away_team 1
        stats_reg_loss := bump s1.stats_reg_loss home_team 1 }
    else
      s1

/-- The whole statistical phase: fold every completed game through the
loop body, starting from empty accumulators. -/
def aggregate (ended_games : List GameRecord) : Stats :=
  ended_games.foldl processGame initStats

/-- `get_team_stats` (TPS.py lines 92-109): per-team
`(reg_win_rate, ot_so_win_rate, total_games)`, with the neutral default
`(0.5, 0.5, 1)` when the team has no completed games. -/
def get_team_stats (st : Stats) (team : Team) : ℚ × ℚ × ℕ :=
  let gw := st.stats_games team
  if gw = 0 then
    (1 / 2, 1 / 2, 1)
  else
    let reg_w := st.stats_reg_win team
    let ot_w := st.stats_ot_so_win team
    ((reg_w : ℚ) / (gw : ℚ), (ot_w : ℚ) / (gw : ℚ), gw)

/-- The epsilon `1e-9` of `match_probability`, as an exact rational. -/
def EPS : ℚ := 1 / 1000000000

/-- `match_probability` (TPS.py lines 111-145).  The Python assigns the
two components of each guarded pair inside a single `if`; here the shared
condition is duplicated per component, which is the same function. -/
def match_probability (st : Stats) (home_team away_team : Team) :
    ℚ × ℚ × ℚ × ℚ :=
  let reg_home := (get_team_stats st home_team).1
  let ot_home := (get_team_stats st home_team).2.1
  let reg_away := (get_team_stats st away_team).1
  let ot_away := (get_team_stats st away_team).2.1
  let s_reg := reg_home + reg_away
  let p_home_reg := if s_reg < EPS then (3 / 10 : ℚ) else reg_home / s_reg
  let p_away_reg := if s_reg < EPS then (3 / 10 : ℚ) else reg_away / s_reg
  let p_ot := max 0 (1 - p_home_reg - p_away_reg)
  let s_ot := ot_home + ot_away
  let p_home_ot :=
    if s_ot < EPS then p_ot * (1 / 2) else p_ot * (ot_home / s_ot)
  let p_away_ot :=
    if s_ot < EPS then p_ot * (1 / 2) else p_ot * (ot_away / s_ot)
  (p_home_reg, p_away_reg, p_home_ot, p_away_ot)

/-- `simulate_single_game` (TPS.py lines 147-170), with the single
`random.random()` draw made an explicit parameter `x`; the successive
`x -= p` steps appear as explicit subtractions. -/
def simulate_single_game (st : Stats) (home_team away_team : Team)
    (x : ℚ) : ℕ × ℕ :=
  let p := match_probability st home_team away_team
  let p_home_reg := p.1
  let p_away_reg := p.2.1
  let p_home_ot := p.2.2.1
  if x < p_home_reg then (3, 0)
  else if x - p_home_reg < p_away_reg then (0, 3)
  else if x - p_home_reg - p_away_reg < p_home_ot then (2, 1)
  else (1, 2)

def TPS_TEAMNAME : Team := "TPS"

def PLAYOFFS_CUTOFF : ℕ := 12

/-- Stable descending insertion by point total: a new entry goes after
every already-placed entry with at least as many points.  This models the
stable `sorted(..., key=lambda x: x[1], reverse=True)` of TPS.py line 194. -/
def insertDesc (p : Team × ℕ) : List (Team × ℕ) → List (Team × ℕ)
  | [] => [p]
  | q :: rest => if q.2 < p.2 then p :: q :: rest else q :: insertDesc p rest

/-- Stable sort by points, descending. -/
def sortDesc (l : List (Team × ℕ)) : List (Team × ℕ) :=
  l.foldl (fun acc p => insertDesc p acc) []

/-- `sim_points.items()`: the key order of the points dictionary is not
derivable from the point function alone, so it is an explicit parameter
`teams` (the dictionary's insertion order). -/
def standingsItems (teams : List Team) (pts : Team → ℕ) :
    List (Team × ℕ) :=
  teams.map (fun t => (t, pts t))

/-- The 1-based rank at which `enumerate(final_standing, start=1)` first
reaches the target team (TPS.py lines 197-201); `none` when the target
never occurs, in which case the Python loop falls through with no
increment. -/
def rank_of (target : Team) (standing : List (Team × ℕ)) : Option ℕ :=
  (standing.findIdx? (fun q => decide (q.1 = target))).map (fun i => i + 1)

/-- The inner `for g in future_games` loop of one trial (TPS.py lines
185-191): starting from the freshly cloned `sim_points`, add the sampled
point pair of every remaining game.  `draw i` is the `random.random()`
value consumed by the `i`-th remaining game. -/
def trial_points (st : Stats) (future : List GameRecord)
    (sim_start : Team → ℕ) (draw : ℕ → ℚ) : Team → ℕ :=
  (future.enum).foldl
    (fun sim ig =>
      let g := ig.2
      let hp_ap :=
        simulate_single_game st g.homeTeam.teamName g.awayTeam.teamName
          (draw ig.1)
      bump (bump sim g.homeTeam.teamName hp_ap.1) g.awayTeam.teamName
        hp_ap.2)
    sim_start

/-- Whether one finished trial counts as a success: the target team is
found in the sorted final standing at a rank at or above the cutoff. -/
def success_at (teams : List Team) (pts : Team → ℕ) (target : Team)
    (cutoff : ℕ) : Bool :=
  match rank_of target (sortDesc (standingsItems teams pts)) with
  | some r => decide (r ≤ cutoff)
  | none => false

/-- One trial's success, from the baseline snapshot it clones. -/
def trial_success (teams : List Team) (st : Stats)
    (future : List GameRecord) (base : Team → ℕ) (draw : ℕ → ℚ)
    (target : Team) (cutoff : ℕ) : Bool :=
  success_at teams (trial_points st future base draw) target cutoff

/-- The mutable store of the Monte Carlo phase: the baseline snapshot
`base_points` (TPS.py line 174) and the success counter (line 180). -/
structure MCState where
  base_points : Team → ℕ
  tps_in_top12_count : ℕ

/-- One iteration of the `for _ in range(N)` loop (TPS.py lines 182-201):
deep-copy the baseline into `sim_points`, simulate every remaining game,
sort, and bump the counter when the target ranks at or above the cutoff.
Only the counter component of the store is ever reassigned. -/
def mc_trial (teams : List Team) (st : Stats) (future : List GameRecord)
    (target : Team) (cutoff : ℕ) (draw : ℕ → ℚ) (mc : MCState) : MCState :=
  if trial_success teams st future mc.base_points draw target cutoff then
    { mc with tps_in_top12_count := mc.tps_in_top12_count + 1 }
  else
    mc

/-- The whole Monte Carlo loop: `n` trials, trial `i` consuming the draw
stream `rand i`. -/
def run_trials (teams : List Team) (st : Stats) (future : List GameRecord)
    (target : Team) (cutoff : ℕ) (rand : ℕ → ℕ → ℚ) (n : ℕ)
    (mc0 : MCState) : MCState :=
  (List.range n).foldl
    (fun mc i => mc_trial teams st future target cutoff (rand i) mc) mc0

/-
Helper lemmas about the rate and pairwise models.
-/

lemma get_team_stats_nonneg (st : Stats) (t : Team) :
    0 ≤ (get_team_stats st t).1 ∧ 0 ≤ (get_team_stats st t).2.1 := by
  simp only [get_team_stats]
  split
  · norm_num
  · refine ⟨?_, ?_⟩ <;> positivity

lemma EPS_pos : (0 : ℚ) < EPS := by norm_num [EPS]

lemma match_probability_core (st : Stats) (h a : Team) :
    0 ≤ (match_probability st h a).1 ∧
    0 ≤ (match_probability st h a).2.1 ∧
    0 ≤ (match_probability st h a).2.2.1 ∧
    0 ≤ (match_probability st h a).2.2.2 ∧
    (match_probability st h a).1 + (match_probability st h a).2.1 +
      (match_probability st h a).2.2.1 + (match_probability st h a).2.2.2
      = 1 := by
  obtain ⟨hr1, ho1⟩ := get_team_stats_nonneg st h
  obtain ⟨hr2, ho2⟩ := get_team_stats_nonneg st a
  simp only [match_probability]
  split_ifs with hs ht ht
  · refine ⟨by norm_num, by norm_num, ?_, ?_, ?_⟩
    · exact mul_nonneg (le_max_left _ _) (by norm_num)
    · exact mul_nonneg (le_max_left _ _) (by norm_num)
    · rw [show ((1 : ℚ) - 3 / 10 - 3 / 10) = 2 / 5 by norm_num,
        max_eq_right (by norm_num : (0 : ℚ) ≤ 2 / 5)]
      norm_num
  · have hot : (0 : ℚ) < (get_team_stats st h).2.1 +
        (get_team_stats st a).2.1 := lt_of_lt_of_le EPS_pos (not_lt.mp ht)
    refine ⟨by norm_num, by norm_num, ?_, ?_, ?_⟩
    · exact mul_nonneg (le_max_left _ _) (div_nonneg ho1 hot.le)
    · exact mul_nonneg (le_max_left _ _) (div_nonneg ho2 hot.le)
    · rw [show ((1 : ℚ) - 3 / 10 - 3 / 10) = 2 / 5 by norm_num,
        max_eq_right (by norm_num : (0 : ℚ) ≤ 2 / 5)]
      field_simp
      ring
  all_goals
    have hreg : (0 : ℚ) < (get_team_stats st h).1 +
        (get_team_stats st a).1 := lt_of_lt_of_le EPS_pos (not_lt.mp hs)
    have hsum1 : (get_team_stats st h).1 /
          ((get_team_stats st h).1 + (get_team_stats st a).1) +
        (get_team_stats st a).1 /
          ((get_team_stats st h).1 + (get_team_stats st a).1) = 1 := by
      field_simp
    have hrest : (1 : ℚ) -
        (get_team_stats st h).1 /
          ((get_team_stats st h).1 + (get_team_stats st a).1) -
        (get_team_stats st a).1 /
          ((get_team_stats st h).1 + (get_team_stats st a).1) = 0 := by
      rw [sub_sub, hsum1, sub_self]
    rw [hrest]
  · exact ⟨div_nonneg hr1 hreg.le, div_nonneg hr2 hreg.le, by norm_num,
      by norm_num, by simp [hsum1]⟩
  · exact ⟨div_nonneg hr1 hreg.le, div_nonneg hr2 hreg.le, by norm_num,
      by norm_num, by simp [hsum1]⟩

lemma match_probability_no_ext (st : Stats) (h a : Team)
    (hge : EPS ≤ (get_team_stats st h).1 + (get_team_stats st a).1) :
    (match_probability st h a).1 + (match_probability st h a).2.1 = 1 ∧
    (match_probability st h a).2.2.1 = 0 ∧
    (match_probability st h a).2.2.2 = 0 := by
  have hreg : (0 : ℚ) < (get_team_stats st h).1 + (get_team_stats st a).1 :=
    lt_of_lt_of_le EPS_pos hge
  simp only [match_probability]
  rw [if_neg (not_lt.mpr hge), if_neg (not_lt.mpr hge)]
  have hsum1 : (get_team_stats st h).1 /
        ((get_team_stats st h).1 + (get_team_stats st a).1) +
      (get_team_stats st a).1 /
        ((get_team_stats st h).1 + (get_team_stats st a).1) = 1 := by
    field_simp
  have hrest : (1 : ℚ) -
      (get_team_stats st h).1 /
        ((get_team_stats st h).1 + (get_team_stats st a).1) -
      (get_team_stats st a).1 /
        ((get_team_stats st h).1 + (get_team_stats st a).1) = 0 := by
    rw [sub_sub, hsum1, sub_self]
  rw [hrest]
  split_ifs <;> simp [hsum1]

/-- Claim C1: for every pair of home and away team identifiers,
`match_probability` returns four values that are each non-negative and
whose sum equals 1 (exactly, in the rational model, hence within any
floating-point tolerance), in every branch including the degenerate-rate
fallbacks. -/
theorem claim_C1_match_probability_distribution (st : Stats)
    (home_team away_team : Team) :
    0 ≤ (match_probability st home_team away_team).1 ∧
    0 ≤ (match_probability st home_team away_team).2.1 ∧
    0 ≤ (match_probability st home_team away_team).2.2.1 ∧
    0 ≤ (match_probability st home_team away_team).2.2.2 ∧
    (match_probability st home_team away_team).1 +
      (match_probability st home_team away_team).2.1 +
      (match_probability st home_team away_team).2.2.1 +
      (match_probability st home_team away_team).2.2.2 = 1 :=
  match_probability_core st home_team away_team

/-- Claim C9: when the two regulation-win rates sum to at least `EPS`,
the two regulation probabilities sum to exactly 1, so both extended-play
probabilities vanish; conversely a positive extended-play probability
forces both regulation-win rates below `EPS` (the 0.3/0.3 fallback
branch). -/
theorem claim_C9_extended_mass_only_in_fallback (st : Stats)
    (home_team away_team : Team) :
    (EPS ≤ (get_team_stats st home_team).1 +
        (get_team_stats st away_team).1 →
      (match_probability st home_team away_team).1 +
        (match_probability st home_team away_team).2.1 = 1 ∧
      (match_probability st home_team away_team).2.2.1 = 0 ∧
      (match_probability st home_team away_team).2.2.2 = 0) ∧
    (0 < (match_probability st home_team away_team).2.2.1 ∨
        0 < (match_probability st home_team away_team).2.2.2 →
      (get_team_stats st home_team).1 < EPS ∧
      (get_team_stats st away_team).1 < EPS) := by
  constructor
  · exact fun hge => match_probability_no_ext st home_team away_team hge
  · intro hpos
    by_contra hcon
    have hge : EPS ≤ (get_team_stats st home_team).1 +
        (get_team_stats st away_team).1 := by
      obtain ⟨hr1, _⟩ := get_team_stats_nonneg st home_team
      obtain ⟨hr2, _⟩ := get_team_stats_nonneg st away_team
      rcases not_and_or.mp hcon with hc | hc
      · calc EPS ≤ (get_team_stats st home_team).1 := not_lt.mp hc
          _ ≤ _ := le_add_of_nonneg_right hr2
      · calc EPS ≤ (get_team_stats st away_team).1 := not_lt.mp hc
          _ ≤ _ := le_add_of_nonneg_left hr1
    obtain ⟨-, h3, h4⟩ := match_probability_no_ext st home_team away_team hge
    rcases hpos with hp | hp
    · exact absurd (h3 ▸ hp) (lt_irrefl 0)
    · exact absurd (h4 ▸ hp) (lt_irrefl 0)

/-- The pairwise model as the spec words it (for refinement comparison
with `match_probability`): epsilon-guarded ratio of regulation rates with
the 0.3/0.3 fallback, leftover mass `max 0 (1 - pHomeReg - pAwayReg)`
split proportionally to the extended-win rates with the same
epsilon-guarded fallback (split evenly in the degenerate case). -/
def matchupProbabilities_spec (st : Stats) (home away : Team) :
    ℚ × ℚ × ℚ × ℚ :=
  let regHome := (get_team_stats st home).1
  let extHome := (get_team_stats st home).2.1
  let regAway := (get_team_stats st away).1
  let extAway := (get_team_stats st away).2.1
  let s := regHome + regAway
  let pHomeReg := if s < EPS then (3 / 10 : ℚ) else regHome / s
  let pAwayReg := if s < EPS then (3 / 10 : ℚ) else regAway / s
  let pExt := max 0 (1 - pHomeReg - pAwayReg)
  let t := extHome + extAway
  let pHomeExt := if t < EPS then pExt / 2 else pExt * (extHome / t)
  let pAwayExt := if t < EPS then pExt / 2 else pExt * (extAway / t)
  (pHomeReg, pAwayReg, pHomeExt, pAwayExt)

/-- Claim C4: `match_probability` computes exactly the spec's formula:
0.3/0.3 when the regulation rates sum below the epsilon, otherwise the
rate ratios; leftover mass `max 0 (1 - pHomeReg - pAwayReg)` split
proportionally to the extended-win rates under the same epsilon guard,
and split evenly in the degenerate fallback. -/
theorem claim_C4_match_probability_formula (st : Stats)
    (home_team away_team : Team) :
    match_probability st home_team away_team =
      matchupProbabilities_spec st home_team away_team := by
  simp only [match_probability, matchupProbabilities_spec]
  split_ifs <;> refine Prod.ext rfl (Prod.ext rfl (Prod.ext ?_ ?_)) <;>
    simp <;> ring

/-- Claim C3: `get_team_stats` returns exactly `(1/2, 1/2, 1)` for a team
with zero completed games, and otherwise the two win counts divided by
the completed-game count together with that count; the divisor is then
provably nonzero, so no division by zero ever occurs. -/
theorem claim_C3_get_team_stats_spec (st : Stats) (team : Team) :
    (st.stats_games team = 0 →
      get_team_stats st team = (1 / 2, 1 / 2, 1)) ∧
    (st.stats_games team ≠ 0 →
      get_team_stats st team =
        ((st.stats_reg_win team : ℚ) / (st.stats_games team : ℚ),
         (st.stats_ot_so_win team : ℚ) / (st.stats_games team : ℚ),
         st.stats_games team) ∧
      (st.stats_games team : ℚ) ≠ 0) := by
  constructor
  · intro h0
    simp [get_team_stats, h0]
  · intro hne
    refine ⟨by simp [get_team_stats, hne], ?_⟩
    exact_mod_cast hne

/-- Claim C5: on a draw `x ∈ [0,1)`, `simulate_single_game` realises the
partition of `[0,1)` into four contiguous intervals in the fixed order
home-regulation, away-regulation, home-extended, away-extended, each
sized by its probability (the four probabilities sum to 1, so the last
interval is exactly the away-extended mass); the four outcomes are
mutually exclusive and exhaustive because each draw lands in exactly one
interval. -/
theorem claim_C5_sampler_partition (st : Stats) (home_team away_team : Team)
    (x : ℚ) (_hx0 : 0 ≤ x) (_hx1 : x < 1) :
    (simulate_single_game st home_team away_team x = (3, 0) ↔
      x < (match_probability st home_team away_team).1) ∧
    (simulate_single_game st home_team away_team x = (0, 3) ↔
      (match_probability st home_team away_team).1 ≤ x ∧
      x < (match_probability st home_team away_team).1 +
        (match_probability st home_team away_team).2.1) ∧
    (simulate_single_game st home_team away_team x = (2, 1) ↔
      (match_probability st home_team away_team).1 +
        (match_probability st home_team away_team).2.1 ≤ x ∧
      x < (match_probability st home_team away_team).1 +
        (match_probability st home_team away_team).2.1 +
        (match_probability st home_team away_team).2.2.1) ∧
    (simulate_single_game st home_team away_team x = (1, 2) ↔
      (match_probability st home_team away_team).1 +
        (match_probability st home_team away_team).2.1 +
        (match_probability st home_team away_team).2.2.1 ≤ x) ∧
    (match_probability st home_team away_team).1 +
      (match_probability st home_team away_team).2.1 +
      (match_probability st home_team away_team).2.2.1 +
      (match_probability st home_team away_team).2.2.2 = 1 := by
  obtain ⟨h1, h2, h3, h4, hsum⟩ :=
    match_probability_core st home_team away_team
  simp only [simulate_single_game]
  set p1 := (match_probability st home_team away_team).1 with hp1
  set p2 := (match_probability st home_team away_team).2.1 with hp2
  set p3 := (match_probability st home_team away_team).2.2.1 with hp3
  by_cases c1 : x < p1
  · rw [if_pos c1]
    refine ⟨⟨fun _ => c1, fun _ => rfl⟩, ?_, ?_, ?_, hsum⟩
    · exact ⟨fun heq => absurd heq (by decide),
        fun hr => absurd c1 (not_lt.mpr hr.1)⟩
    · exact ⟨fun heq => absurd heq (by decide),
        fun hr => absurd c1 (not_lt.mpr (by linarith [hr.1]))⟩
    · exact ⟨fun heq => absurd heq (by decide),
        fun hr => absurd c1 (not_lt.mpr (by linarith))⟩
  · rw [if_neg c1]
    by_cases c2 : x - p1 < p2
    · rw [if_pos c2]
      refine ⟨?_, ?_, ?_, ?_, hsum⟩
      · exact ⟨fun heq => absurd heq (by decide), fun hlt => absurd hlt c1⟩
      · exact ⟨fun _ => ⟨not_lt.mp c1, by linarith⟩, fun _ => rfl⟩
      · exact ⟨fun heq => absurd heq (by decide),
          fun hr => absurd c2 (not_lt.mpr (by linarith [hr.1]))⟩
      · exact ⟨fun heq => absurd heq (by decide),
          fun hr => absurd c2 (not_lt.mpr (by linarith))⟩
    · rw [if_neg c2]
      by_cases c3 : x - p1 - p2 < p3
      · rw [if_pos c3]
        refine ⟨?_, ?_, ?_, ?_, hsum⟩
        · exact ⟨fun heq => absurd heq (by decide), fun hlt => absurd hlt c1⟩
        · exact ⟨fun heq => absurd heq (by decide),
            fun hr => absurd (show x - p1 < p2 by linarith [hr.2]) c2⟩
        · exact ⟨fun _ => ⟨by linarith [not_lt.mp c2], by linarith⟩,
            fun _ => rfl⟩
        · exact ⟨fun heq => absurd heq (by decide),
            fun hr => absurd c3 (not_lt.mpr (by linarith))⟩
      · rw [if_neg c3]
        refine ⟨?_, ?_, ?_, ?_, hsum⟩
        · exact ⟨fun heq => absurd heq (by decide), fun hlt => absurd hlt c1⟩
        · exact ⟨fun heq => absurd heq (by decide),
            fun hr => absurd (show x - p1 < p2 by linarith [hr.2]) c2⟩
        · exact ⟨fun heq => absurd heq (by decide),
            fun hr => absurd (show x - p1 - p2 < p3 by linarith [hr.2]) c3⟩
        · exact ⟨fun _ => by linarith [not_lt.mp c3], fun _ => rfl⟩

/-- A concrete non-degenerate tally: every team has 2 completed games,
1 regulation win and no extended wins, so `rates = (1/2, 0, 2)`. -/
def stRegular : Stats :=
  ⟨fun _ => 3, fun _ => 2, fun _ => 2, fun _ => 1, fun _ => 1, fun _ => 0,
    fun _ => 0⟩

/-- A concrete degenerate tally: every team has 2 completed games, no
regulation wins and 1 extended win, so `rates = (0, 1/2, 2)`. -/
def stDegenerate : Stats :=
  ⟨fun _ => 2, fun _ => 2, fun _ => 2, fun _ => 0, fun _ => 0, fun _ => 1,
    fun _ => 1⟩

theorem claim_C3_witness :
    (initStats.stats_games TPS_TEAMNAME = 0 ∧
      get_team_stats initStats TPS_TEAMNAME = (1 / 2, 1 / 2, 1)) ∧
    (stRegular.stats_games TPS_TEAMNAME ≠ 0 ∧
      (get_team_stats stRegular TPS_TEAMNAME =
        ((stRegular.stats_reg_win TPS_TEAMNAME : ℚ) /
            (stRegular.stats_games TPS_TEAMNAME : ℚ),
         (stRegular.stats_ot_so_win TPS_TEAMNAME : ℚ) /
            (stRegular.stats_games TPS_TEAMNAME : ℚ),
         stRegular.stats_games TPS_TEAMNAME) ∧
        (stRegular.stats_games TPS_TEAMNAME : ℚ) ≠ 0)) :=
  ⟨⟨rfl, (claim_C3_get_team_stats_spec initStats TPS_TEAMNAME).1 rfl⟩,
   ⟨by decide,
    (claim_C3_get_team_stats_spec stRegular TPS_TEAMNAME).2 (by decide)⟩⟩

theorem claim_C9_witness :
    (EPS ≤ (get_team_stats stRegular TPS_TEAMNAME).1 +
        (get_team_stats stRegular TPS_TEAMNAME).1 ∧
      (match_probability stRegular TPS_TEAMNAME TPS_TEAMNAME).1 +
        (match_probability stRegular TPS_TEAMNAME TPS_TEAMNAME).2.1 = 1 ∧
      (match_probability stRegular TPS_TEAMNAME TPS_TEAMNAME).2.2.1 = 0 ∧
      (match_probability stRegular TPS_TEAMNAME TPS_TEAMNAME).2.2.2 = 0) ∧
    (0 < (match_probability stDegenerate TPS_TEAMNAME TPS_TEAMNAME).2.2.1 ∧
      (get_team_stats stDegenerate TPS_TEAMNAME).1 < EPS ∧
      (get_team_stats stDegenerate TPS_TEAMNAME).1 < EPS) := by
  have hge : EPS ≤ (get_team_stats stRegular TPS_TEAMNAME).1 +
      (get_team_stats stRegular TPS_TEAMNAME).1 := by
    norm_num [get_team_stats, stRegular, EPS]
  have hpos :
      0 < (match_probability stDegenerate TPS_TEAMNAME TPS_TEAMNAME).2.2.1 := by
    norm_num [match_probability, get_team_stats, stDegenerate, EPS]
  exact ⟨⟨hge,
      (claim_C9_extended_mass_only_in_fallback stRegular TPS_TEAMNAME
        TPS_TEAMNAME).1 hge⟩,
    ⟨hpos,
      (claim_C9_extended_mass_only_in_fallback stDegenerate TPS_TEAMNAME
        TPS_TEAMNAME).2 (Or.inl hpos)⟩⟩

theorem claim_C5_witness :
    ((0 : ℚ) ≤ 0 ∧ (0 : ℚ) < 1) ∧
    (simulate_single_game stRegular TPS_TEAMNAME TPS_TEAMNAME 0 = (3, 0) ↔
      (0 : ℚ) < (match_probability stRegular TPS_TEAMNAME TPS_TEAMNAME).1) :=
  ⟨⟨le_refl 0, by norm_num⟩,
    (claim_C5_sampler_partition stRegular TPS_TEAMNAME TPS_TEAMNAME 0
      (le_refl 0) (by norm_num)).1⟩

/-- Claim C7: a completed game with a regulation-class tag and equal goal
counts awards no points and touches no win/loss counter; only the two
completed-game counters (and the parallel `games_played` counters) are
incremented, and the loop body is a total function on such records. -/
theorem claim_C7_regulation_tie (s : Stats) (g : GameRecord)
    (hext : isExtendedType g.finishedType = false)
    (htie : g.homeTeam.goals = g.awayTeam.goals) :
    processGame s g =
      { s with
        stats_games := bump (bump s.stats_games g.homeTeam.teamName 1)
          g.awayTeam.teamName 1
        games_played := bump (bump s.games_played g.homeTeam.teamName 1)
          g.awayTeam.teamName 1 } := by
  simp [processGame, hext, htie]

/-- Claim C10: a completed game with an extended-play tag and equal goal
counts is classified as an away-team extended win: the away team gets 2
points and an extended-win increment, the home team gets 1 point and an
extended-loss increment (both game counters are incremented as always). -/
theorem claim_C10_extended_tie_away_win (s : Stats) (g : GameRecord)
    (hext : isExtendedType g.finishedType = true)
    (htie : g.homeTeam.goals = g.awayTeam.goals) :
    processGame s g =
      { s with
        stats_games := bump (bump s.stats_games g.homeTeam.teamName 1)
          g.awayTeam.teamName 1
        games_played := bump (bump s.games_played g.homeTeam.teamName 1)
          g.awayTeam.teamName 1
        points := bump (bump s.points g.awayTeam.teamName 2)
          g.homeTeam.teamName 1
        stats_ot_so_win := bump s.stats_ot_so_win g.awayTeam.teamName 1
        stats_ot_so_loss := bump s.stats_ot_so_loss g.homeTeam.teamName 1 } := by
  simp [processGame, hext, htie]

lemma bump_apply (f : Team → ℕ) (t x : Team) (n : ℕ) :
    bump f t n x = f x + (if x = t then n else 0) := by
  unfold bump
  split_ifs <;> simp

lemma processGame_comm (s : Stats) (g₁ g₂ : GameRecord) :
    processGame (processGame s g₁) g₂ = processGame (processGame s g₂) g₁ := by
  simp only [processGame]
  split_ifs <;>
    (refine Stats.ext ?_ ?_ ?_ ?_ ?_ ?_ ?_ <;> funext x <;>
      simp only [bump_apply] <;> ring)

lemma foldl_processGame_perm {l₁ l₂ : List GameRecord} (hp : l₁.Perm l₂) :
    ∀ s : Stats, l₁.foldl processGame s = l₂.foldl processGame s := by
  induction hp with
  | nil => intro s; rfl
  | cons x h ih =>
      intro s
      simp only [List.foldl_cons]
      exact ih _
  | swap x y l =>
      intro s
      simp only [List.foldl_cons, processGame_comm]
  | trans h₁ h₂ ih₁ ih₂ =>
      intro s
      rw [ih₁ s, ih₂ s]

/-- Claim C8: the standings aggregator is a commutative fold — any
permutation of the completed-game list yields the same per-team point
totals and the same per-team tallies (the whole `Stats` record agrees). -/
theorem claim_C8_aggregate_perm (l₁ l₂ : List GameRecord)
    (hp : l₁.Perm l₂) : aggregate l₁ = aggregate l₂ :=
  foldl_processGame_perm hp initStats

def OPPONENT_TEAMNAME : Team := "HIFK"

/-- A realistic regulation-time qualifier tag (matches none of the
extended-play markers). -/
def REGULAR_TAG : String := "ENDED_DURING_REGULAR_GAME_TIME"

/-- A realistic extended-play qualifier tag (contains the marker
`EXTENDED`). -/
def EXTENDED_GAME_TAG : String := "ENDED_DURING_EXTENDED_GAME_TIME"

def wGame1 : GameRecord :=
  ⟨⟨TPS_TEAMNAME, 3⟩, ⟨OPPONENT_TEAMNAME, 1⟩, true, REGULAR_TAG⟩

def wGame2 : GameRecord :=
  ⟨⟨OPPONENT_TEAMNAME, 2⟩, ⟨TPS_TEAMNAME, 2⟩, true, EXTENDED_GAME_TAG⟩

/-- A regulation-time tie record. -/
def wTieReg : GameRecord :=
  ⟨⟨TPS_TEAMNAME, 2⟩, ⟨OPPONENT_TEAMNAME, 2⟩, true, REGULAR_TAG⟩

/-- An extended-play record with equal goal counts. -/
def wTieExt : GameRecord :=
  ⟨⟨TPS_TEAMNAME, 2⟩, ⟨OPPONENT_TEAMNAME, 2⟩, true, EXTENDED_GAME_TAG⟩

theorem claim_C7_witness :
    isExtendedType wTieReg.finishedType = false ∧
    wTieReg.homeTeam.goals = wTieReg.awayTeam.goals ∧
    processGame initStats wTieReg =
      { initStats with
        stats_games := bump (bump initStats.stats_games
          wTieReg.homeTeam.teamName 1) wTieReg.awayTeam.teamName 1
        games_played := bump (bump initStats.games_played
          wTieReg.homeTeam.teamName 1) wTieReg.awayTeam.teamName 1 } :=
  ⟨by decide, rfl, claim_C7_regulation_tie initStats wTieReg (by decide) rfl⟩

theorem claim_C10_witness :
    isExtendedType wTieExt.finishedType = true ∧
    wTieExt.homeTeam.goals = wTieExt.awayTeam.goals ∧
    processGame initStats wTieExt =
      { initStats with
        stats_games := bump (bump initStats.stats_games
          wTieExt.homeTeam.teamName 1) wTieExt.awayTeam.teamName 1
        games_played := bump (bump initStats.games_played
          wTieExt.homeTeam.teamName 1) wTieExt.awayTeam.teamName 1
        points := bump (bump initStats.points wTieExt.awayTeam.teamName 2)
          wTieExt.homeTeam.teamName 1
        stats_ot_so_win := bump initStats.stats_ot_so_win
          wTieExt.awayTeam.teamName 1
        stats_ot_so_loss := bump initStats.stats_ot_so_loss
          wTieExt.homeTeam.teamName 1 } :=
  ⟨by decide, rfl,
    claim_C10_extended_tie_away_win initStats wTieExt (by decide) rfl⟩

theorem claim_C8_witness :
    [wGame1, wGame2].Perm [wGame2, wGame1] ∧
    aggregate [wGame1, wGame2] = aggregate [wGame2, wGame1] :=
  ⟨List.Perm.swap wGame2 wGame1 [],
    claim_C8_aggregate_perm [wGame1, wGame2] [wGame2, wGame1]
      (List.Perm.swap wGame2 wGame1 [])⟩

lemma mc_trial_base_points (teams : List Team) (st : Stats)
    (future : List GameRecord) (target : Team) (cutoff : ℕ) (draw : ℕ → ℚ)
    (mc : MCState) :
    (mc_trial teams st future target cutoff draw mc).base_points =
      mc.base_points := by
  unfold mc_trial
  split_ifs <;> rfl

lemma mc_trial_count (teams : List Team) (st : Stats)
    (future : List GameRecord) (target : Team) (cutoff : ℕ) (draw : ℕ → ℚ)
    (mc : MCState) :
    (mc_trial teams st future target cutoff draw mc).tps_in_top12_count =
      mc.tps_in_top12_count +
        (if trial_success teams st future mc.base_points draw target cutoff
          then 1 else 0) := by
  unfold mc_trial
  split_ifs <;> simp

lemma run_trials_spec (teams : List Team) (st : Stats)
    (future : List GameRecord) (target : Team) (cutoff : ℕ)
    (rand : ℕ → ℕ → ℚ) :
    ∀ (n : ℕ) (mc : MCState),
      (run_trials teams st future target cutoff rand n mc).base_points =
        mc.base_points ∧
      (run_trials teams st future target cutoff rand n
          mc).tps_in_top12_count =
        mc.tps_in_top12_count +
          (List.range n).countP
            (fun i =>
              trial_success teams st future mc.base_points (rand i) target
                cutoff) := by
  intro n
  induction n with
  | zero =>
      intro mc
      simp [run_trials]
  | succ n ih =>
      intro mc
      obtain ⟨ihb, ihc⟩ := ih mc
      unfold run_trials at ihb ihc ⊢
      rw [List.range_succ, List.foldl_append]
      simp only [List.foldl_cons, List.foldl_nil]
      constructor
      · rw [mc_trial_base_points, ihb]
      · rw [mc_trial_count, ihb, ihc, List.countP_append]
        simp [List.countP_cons, Nat.add_assoc]

/-- Claim C2: the baseline snapshot is never mutated by the Monte Carlo
loop — after any number of trials the `base_points` component of the
store is unchanged — and trials are isolated: the final success count is
the initial count plus one independent per-trial contribution, where
trial `i`'s contribution depends only on the (unchanged) baseline and on
trial `i`'s own draw stream, never on another trial's working copy. -/
theorem claim_C2_baseline_never_mutated (teams : List Team) (st : Stats)
    (future : List GameRecord) (target : Team) (cutoff : ℕ)
    (rand : ℕ → ℕ → ℚ) (n : ℕ) (mc : MCState) :
    (run_trials teams st future target cutoff rand n mc).base_points =
      mc.base_points ∧
    (run_trials teams st future target cutoff rand n
        mc).tps_in_top12_count =
      mc.tps_in_top12_count +
        (List.range n).countP
          (fun i =>
            trial_success teams st future mc.base_points (rand i) target
              cutoff) :=
  run_trials_spec teams st future target cutoff rand n mc

/-- Claim C6: with no remaining games every trial reproduces the
baseline, so the estimate is deterministic for every trial count: the
reported probability is exactly 1 when the target team's rank in the
baseline standings is at or above the cutoff, and exactly 0 otherwise. -/
theorem claim_C6_no_future_deterministic (teams : List Team) (st : Stats)
    (target : Team) (cutoff : ℕ) (rand : ℕ → ℕ → ℚ) (n : ℕ) (hn : 0 < n)
    (base : Team → ℕ) :
    ((run_trials teams st [] target cutoff rand n
        ⟨base, 0⟩).tps_in_top12_count : ℚ) / (n : ℚ) =
      if success_at teams base target cutoff then 1 else 0 := by
  obtain ⟨-, hc⟩ := run_trials_spec teams st [] target cutoff rand n ⟨base, 0⟩
  have hts : ∀ d, trial_success teams st [] base d target cutoff =
      success_at teams base target cutoff := fun d => rfl
  rw [hc]
  simp only [hts]
  have hn0 : (n : ℚ) ≠ 0 := Nat.cast_ne_zero.mpr hn.ne'
  by_cases hb : success_at teams base target cutoff = true
  · rw [hb]
    simp only [List.countP_true, List.length_range, Nat.zero_add]
    rw [div_self hn0]
    simp [hb]
  · rw [Bool.not_eq_true] at hb
    rw [hb]
    simp [hb, List.countP_false]

theorem claim_C6_witness :
    0 < 2 ∧
    ((run_trials [TPS_TEAMNAME] initStats [] TPS_TEAMNAME PLAYOFFS_CUTOFF
        (fun _ _ => 0) 2 ⟨fun _ => 0, 0⟩).tps_in_top12_count : ℚ) /
        ((2 : ℕ) : ℚ) =
      if success_at [TPS_TEAMNAME] (fun _ => 0) TPS_TEAMNAME PLAYOFFS_CUTOFF
        then 1 else 0 :=
  ⟨by decide,
    claim_C6_no_future_deterministic [TPS_TEAMNAME] initStats TPS_TEAMNAME
      PLAYOFFS_CUTOFF (fun _ _ => 0) 2 (by decide) (fun _ => 0)⟩
